import Mathlib

/-!
Shallow embedding of the pywps I/O-representation and storage core
(`pywps/inout/basic.py`, `pywps/inout/storage.py`,
`pywps/inout/storage/db/{__init__,pg,sqlite}.py`) together with proofs
about the spec's claims.

Conventions of the embedding:
* Python byte strings are `List Nat`, Python text strings are `String`;
  a text value written to a file is encoded character-by-character
  (`Char.toNat`), which is exact for the ASCII data the code handles.
* A raising Python call is a value of `PyResult ε α σ`: either `ok` with the
  return value and the post-call state, or `exn` with the exception and the
  state as mutated up to the raise (Python exceptions do not roll back
  already-performed attribute assignments or filesystem writes).
* `PY2` is `false`: the modelled execution is CPython 3, the primary target
  of the code (`pywps._compat.PY2` branches are translated faithfully and
  collapse under `PY2 = false`).
* The filesystem is an association list from absolute path to byte content,
  plus a directory set and the `os.stat`/`os.statvfs` figures the storage
  code reads.
-/

namespace PyWPS

/-- Result of running a piece of Python code: a return value or a raised
exception, each together with the state as left behind by the call. -/
inductive PyResult (ε : Type) (α : Type) (σ : Type) where
  | ok (a : α) (st : σ)
  | exn (e : ε) (st : σ)
deriving DecidableEq, Repr

/-- The exception taxonomy raised by the modelled code paths. -/
inductive PyErr where
  | invalidParameterValue (msg : String) (locator : String)
  | notEnoughStorage (msg : String)
  | typeError
  | attributeError
  | assertionError
  | programmingError
  | operationalError
  | zeroDivisionError
  | fileNotFoundError
  | notImplementedError (msg : String)
  | genericException (msg : String)
deriving DecidableEq, Repr

/-- A Python runtime value as held in `IOHandler.source` and returned by the
`get_*` accessors: `None`, a `str`, a `bytes`, or a readable stream object
(whose full drained payload is either bytes or text). -/
inductive PyData where
  | bytes (b : List Nat)
  | text (s : String)
deriving DecidableEq, Repr

inductive PyVal where
  | vnone
  | vstr (s : String)
  | vbytes (b : List Nat)
  | vstream (payload : PyData)
deriving DecidableEq, Repr

/-- Character-wise encoding of a text value written to a file
(exact for ASCII, newline translation not modelled: POSIX platform). -/
def encodeStr (s : String) : List Nat := s.data.map Char.toNat

/-- Character-wise decoding of file bytes read in text mode. -/
def decodeBytes (l : List Nat) : String := String.mk (l.map (fun n => Char.ofNat n))

/-- `sub` occurs at the head of `l`. -/
def leadsWith (sub l : List Char) : Bool :=
  match sub, l with
  | [], _ => true
  | _ :: _, [] => false
  | a :: as, b :: bs => a = b && leadsWith as bs

/-- `sub` occurs somewhere inside `l`. -/
def hasSubList (sub l : List Char) : Bool :=
  match l with
  | [] => sub.isEmpty
  | _ :: rest => leadsWith sub l || hasSubList sub rest

/-- Substring test, Python's `sub in s`. -/
def strContains (s sub : String) : Bool := hasSubList sub.data s.data

/-- Python `s.rstrip('/')`: drop every trailing slash. -/
def rstripSlash (s : String) : String :=
  String.mk (s.data.reverse.dropWhile (fun c => c = '/')).reverse

/-- `os.path.split`: split off the base name after the last slash.  The
directory half keeps Python's behaviour of dropping the final separator
(it is discarded by every caller in the modelled code). -/
def osPathSplit (p : String) : String × String :=
  let r := p.data.reverse
  (String.mk ((r.dropWhile (fun c => c ≠ '/')).drop 1).reverse,
   String.mk (r.takeWhile (fun c => c ≠ '/')).reverse)

/-- `os.path.basename`. -/
def osPathBasename (p : String) : String := (osPathSplit p).2

/-- `os.path.splitext`: the extension starts at the base name's last dot,
provided that dot is preceded (within the base name) by a non-dot
character; otherwise the extension is empty. -/
def osPathSplitext (p : String) : String × String :=
  let base := (p.data.reverse.takeWhile (fun c => c ≠ '/')).reverse
  let extLen := (base.reverse.takeWhile (fun c => c ≠ '.')).length
  if extLen < base.length ∧ (base.take (base.length - extLen - 1)).any (fun c => c ≠ '.') then
    (String.mk (p.data.take (p.data.length - extLen - 1)),
     String.mk (p.data.drop (p.data.length - extLen - 1)))
  else
    (p, "")

/-- First character is a slash (`s.startswith('/')`). -/
def headIsSlash (s : String) : Bool :=
  match s.data with
  | '/' :: _ => true
  | _ => false

/-- Last character is a slash (`s.endswith('/')`). -/
def lastIsSlash (s : String) : Bool :=
  match s.data.reverse with
  | '/' :: _ => true
  | _ => false

/-- `os.path.join` for two components (POSIX). -/
def osPathJoin (a b : String) : String :=
  if headIsSlash b then b
  else if a = "" ∨ lastIsSlash a then a ++ b
  else a ++ "/" ++ b

/-- The process working directory assumed by the model
(`os.path.abspath` resolves relative names against it). -/
def cwdDir : String := "/cwd"

/-- `os.path.abspath` (dot-segment normalisation not modelled: the code
never passes names containing dot segments). -/
def osPathAbspath (p : String) : String :=
  if headIsSlash p then p else osPathJoin cwdDir p

/-- `urllib.parse.urljoin` restricted to a plain relative reference:
the reference replaces everything after the base's last slash.  Every call
site builds a base ending in a slash and joins a bare file name. -/
def urljoin (base rel : String) : String :=
  String.mk ((base.data.reverse.dropWhile (fun c => c ≠ '/')).reverse) ++ rel

/-- `pywps._compat.PY2`: the modelled interpreter is Python 3. -/
def PY2 : Bool := false

/-! ## Filesystem model -/

/-- Association-list lookup by path. -/
def lookupFS {α : Type} (files : List (String × α)) (p : String) : Option α :=
  match files with
  | [] => none
  | (q, c) :: rest => if q = p then some c else lookupFS rest p

/-- Overwrite-or-create a file. -/
def writeFS (files : List (String × List Nat)) (p : String) (c : List Nat) :
    List (String × List Nat) :=
  match files with
  | [] => [(p, c)]
  | (q, d) :: rest => if q = p then (q, c) :: rest else (q, d) :: writeFS rest p c

/-- The world the code runs against: file contents, existing directories, the
per-file `st_blksize` reading, the free-block count `os.statvfs(target).f_bfree`
of the volume holding the configured storage target, that volume's own block
size (`f_frsize`, read by nobody in the code but needed to state what space is
actually available), and the name supply used for `uuid.uuid1()`. -/
structure World where
  files : List (String × List Nat)
  dirs : List String
  blks : List (String × Nat)
  targetFreeBlocks : Nat
  targetBlksize : Nat
  uuid1 : String
deriving DecidableEq, Repr

def World.statSize (w : World) (p : String) : Option (List Nat) := lookupFS w.files p

def World.statBlksize (w : World) (p : String) : Nat :=
  (lookupFS w.blks p).getD 0

/-! ## tempfile.mkstemp

`mkstemp` creates (exclusively) a fresh empty file named
`<prefix><random part><suffix>` inside `dir` and returns its absolute path.
Its retry-until-`O_EXCL`-succeeds loop over random names is modelled by a
deterministic choice of a random part (a run of `x` characters) long enough
that the resulting name cannot equal any existing path. -/

def mkstempName (dir pre suffix : String) (k : Nat) : String :=
  osPathAbspath (osPathJoin dir (pre ++ String.mk (List.replicate k 'x') ++ suffix))

/-- A length strictly above that of every existing path. -/
def mkstempPad (files : List (String × List Nat)) : Nat :=
  (files.map (fun q => q.1.data.length)).foldr max 0 + 1

def mkstemp (w : World) (dir pre suffix : String) : String × World :=
  let p := mkstempName dir pre suffix (mkstempPad w.files)
  (p, { w with files := writeFS w.files p [] })

/-! ## IOHandler (`pywps/inout/basic.py`) -/

/-- `SOURCE_TYPE = _SOURCE_TYPE(0, 1, 2, 3)`. -/
def SOURCE_TYPE_MEMORY : Nat := 0
def SOURCE_TYPE_FILE : Nat := 1
def SOURCE_TYPE_STREAM : Nat := 2
def SOURCE_TYPE_DATA : Nat := 3

/-- Format descriptor fields compared and read by the analysed code.  The
`validate` capability slot is not modelled: the `data_format` setter's
re-resolution of it never touches the compared
mime/encoding/schema/extension fields. -/
structure Format where
  mime_type : String
  encoding : String
  schema : String
  extension : String
deriving DecidableEq, Repr

/-- Modelled from the spec: `Format.same_as` is defined in the
`pywps.inout.formats` module, which is not among the analysed sources.
Spec §3: "Two descriptors are 'the same format' iff mime_type, encoding,
and schema match." -/
def Format.same_as (a b : Format) : Bool :=
  a.mime_type = b.mime_type && a.encoding = b.encoding && a.schema = b.schema

/-- The mutable attributes of an `IOHandler` object.  `data_format` is
`none` when the object lacks the attribute (a plain `IOHandler`),
`some none` when the attribute is present but `None`, and `some (some f)`
when a format is bound (the `hasattr` checks in `get_file`/`_openmode`
distinguish the first case only). -/
structure IOHandler where
  source_type : Option Nat := none
  source : PyVal := .vnone
  tempfile : Option String := none
  workdir : Option String := none
  uuid : Option String := none
  data_set : Bool := false
  valid_mode : Nat := 0
  data_format : Option (Option Format) := none
deriving DecidableEq, Repr

/-- The pluggable `validate(handle, mode) -> bool` capability returned by the
(dynamically dispatched) `validator` property. -/
abbrev Validator := IOHandler → Nat → Bool

/-- `IOHandler.__init__`: besides zeroing the attributes, the `workdir`
assignment routes through `set_workdir`, which creates a missing working
directory. -/
def IOHandler.init (wd : Option String) (mode : Nat) (w : World) : IOHandler × World :=
  ({ source_type := none, source := .vnone, tempfile := none, workdir := wd,
     uuid := none, data_set := false, valid_mode := mode, data_format := none },
   match wd with
   | none => w
   | some d => if d ∈ w.dirs then w else { w with dirs := d :: w.dirs })

/-- `IOHandler._check_valid`. -/
def IOHandler.check_valid (v : Validator) (h : IOHandler) : PyResult PyErr Unit IOHandler :=
  if v h h.valid_mode then .ok () { h with data_set := true }
  else
    .exn (.invalidParameterValue
      ("Input data not valid using mode " ++ toString h.valid_mode) "") { h with data_set := false }

/-- `IOHandler.set_file`. -/
def IOHandler.set_file (v : Validator) (filename : String) (h : IOHandler) :
    PyResult PyErr Unit IOHandler :=
  IOHandler.check_valid v
    { h with source_type := some SOURCE_TYPE_FILE, source := .vstr (osPathAbspath filename) }

/-- `IOHandler.set_stream`. -/
def IOHandler.set_stream (v : Validator) (s : PyData) (h : IOHandler) :
    PyResult PyErr Unit IOHandler :=
  IOHandler.check_valid v
    { h with source_type := some SOURCE_TYPE_STREAM, source := .vstream s }

/-- `IOHandler.set_data`. -/
def IOHandler.set_data (v : Validator) (d : PyVal) (h : IOHandler) :
    PyResult PyErr Unit IOHandler :=
  IOHandler.check_valid v { h with source_type := some SOURCE_TYPE_DATA, source := d }

/-- `IOHandler.set_base64`: assigns `self.data = base64.b64decode(data)`
(routing through `set_data`, whose validation may already raise) and then
validates once more.  The `decoded` argument stands for
`base64.b64decode(data)`. -/
def IOHandler.set_base64 (v : Validator) (decoded : List Nat) (h : IOHandler) :
    PyResult PyErr Unit IOHandler :=
  match IOHandler.set_data v (.vbytes decoded) h with
  | .ok _ h1 => IOHandler.check_valid v h1
  | .exn e h1 => .exn e h1

/-- Writing to an open file handle: CPython 3 text handles accept only
`str`, binary handles only `bytes`; anything else is a `TypeError`. -/
def fileWrite (w : World) (p : String) (mode : String) (v : PyVal) :
    PyResult PyErr Unit World :=
  match v with
  | .vbytes b =>
    if mode = "wb" then .ok () { w with files := writeFS w.files p b } else .exn .typeError w
  | .vstr s =>
    if mode = "w" then .ok () { w with files := writeFS w.files p (encodeStr s) }
    else .exn .typeError w
  | _ => .exn .typeError w

/-- `IOHandler.get_file`.  Materialisation writes through an `open` whose
mode is binary exactly when `self.source` is a `bytes` object (the stream
object itself never is, so a stream's payload is written through a
text-mode handle). -/
def IOHandler.get_file (w : World) (h : IOHandler) :
    PyResult PyErr PyVal (IOHandler × World) :=
  if h.source_type = some SOURCE_TYPE_FILE then .ok h.source (h, w)
  else if h.source_type = some SOURCE_TYPE_STREAM ∨ h.source_type = some SOURCE_TYPE_DATA then
    match h.tempfile with
    | some t => .ok (.vstr t) (h, w)
    | none =>
      match h.data_format with
      | some none => .exn .attributeError (h, w)
      | df =>
        let suffix := match df with
          | some (some f) => f.extension
          | _ => ""
        let dir := h.workdir.getD "/tmp"
        let (p, w1) := mkstemp w dir "tmp" suffix
        let mode := if !PY2 && (match h.source with | .vbytes _ => true | _ => false)
          then "wb" else "w"
        let payload : Except PyErr PyVal :=
          if h.source_type = some SOURCE_TYPE_STREAM then
            match h.source with
            | .vstream (.bytes b) => .ok (.vbytes b)
            | .vstream (.text s) => .ok (.vstr s)
            | _ => .error .attributeError
          else .ok h.source
        match payload with
        | .error e => .exn e (h, w1)
        | .ok pay =>
          match fileWrite w1 p mode pay with
          | .ok _ w2 => .ok (.vstr p) ({ h with tempfile := some p }, w2)
          | .exn e w2 => .exn e (h, w2)
  else .ok .vnone (h, w)

/-- Python `str()` of the modelled values; only the `str` case is exercised
by the claims. -/
def pyStr : PyVal → String
  | .vnone => "None"
  | .vstr s => s
  | .vbytes b => "b" ++ decodeBytes b
  | .vstream _ => "stream"

/-- `IOHandler.get_stream` (the `_stream` bookkeeping that closes a
previously returned `FileIO` is not modelled: no claim reads it). -/
def IOHandler.get_stream (w : World) (h : IOHandler) : Except PyErr PyVal :=
  if h.source_type = some SOURCE_TYPE_FILE then
    match h.source with
    | .vstr p =>
      match lookupFS w.files p with
      | some c => .ok (.vstream (.bytes c))
      | none => .error .fileNotFoundError
    | _ => .error .typeError
  else if h.source_type = some SOURCE_TYPE_STREAM then .ok h.source
  else if h.source_type = some SOURCE_TYPE_DATA then
    match h.source with
    | .vbytes b => .ok (.vstream (.bytes b))
    | v => .ok (.vstream (.text (pyStr v)))
  else .ok .vnone

/-- `_is_textfile` (module level).  The `python-magic` probe sits behind an
ImportError fall-back; the optional dependency is absent in the modelled
environment, so the 512-byte zero-byte sniff runs. -/
def is_textfile (w : World) (filename : String) : Except PyErr Bool :=
  match lookupFS w.files filename with
  | some c => .ok (decide (¬ (0 ∈ c.take 512)))
  | none => .error .fileNotFoundError

/-- The zero-byte sniff half of `_openmode`. -/
def IOHandler.openmodeSniff (w : World) (h : IOHandler) : Except PyErr String :=
  match h.source with
  | .vstr p =>
    match is_textfile w p with
    | .ok true => .ok "r"
    | .ok false => .ok "rb"
    | .error e => .error e
  | _ => .error .typeError

/-- `IOHandler._openmode` (the Python 3 branch; under `PY2` the mode is
always plain `"r"`). -/
def IOHandler.openmode (w : World) (h : IOHandler) : Except PyErr String :=
  if PY2 then .ok "r"
  else
    match h.data_format with
    | some none => .error .attributeError
    | some (some df) =>
      if df.encoding = "base64" then .ok "rb"
      else if strContains df.mime_type "text/" then .ok "r"
      else IOHandler.openmodeSniff w h
    | none => IOHandler.openmodeSniff w h

/-- `IOHandler.get_data`. -/
def IOHandler.get_data (w : World) (h : IOHandler) : Except PyErr PyVal :=
  if h.source_type = some SOURCE_TYPE_FILE then
    match IOHandler.openmode w h with
    | .error e => .error e
    | .ok mode =>
      match h.source with
      | .vstr p =>
        match lookupFS w.files p with
        | some c => .ok (if mode = "rb" then .vbytes c else .vstr (decodeBytes c))
        | none => .error .fileNotFoundError
      | _ => .error .typeError
  else if h.source_type = some SOURCE_TYPE_STREAM then
    match h.source with
    | .vstream (.bytes b) => .ok (.vbytes b)
    | .vstream (.text s) => .ok (.vstr s)
    | _ => .error .attributeError
  else if h.source_type = some SOURCE_TYPE_DATA then .ok h.source
  else .ok .vnone

/-! ## BasicComplex (`pywps/inout/basic.py`) -/

/-- The format-negotiation state of a complex handle.  `supported_formats`
models both the initial `None` and a configured list (`if self.supported_formats:`
treats `None` and `[]` alike); the per-format validator re-resolution done by
the setters never touches the compared fields and is omitted. -/
structure BasicComplex where
  data_format : Option Format := none
  supported_formats : List Format := []
deriving DecidableEq, Repr

/-- `BasicComplex._is_supported`. -/
def BasicComplex.is_supported (bc : BasicComplex) (g : Format) : Bool :=
  bc.supported_formats.any (fun f => f.same_as g)

/-- The `data_format` property setter. -/
def BasicComplex.set_data_format (bc : BasicComplex) (g : Format) :
    PyResult PyErr Unit BasicComplex :=
  if bc.is_supported g then .ok () { bc with data_format := some g }
  else
    .exn (.invalidParameterValue
      ("Requested format " ++ g.mime_type ++ ", " ++ g.encoding ++ ", " ++
        g.schema ++ " not supported") "mimeType") bc

/-- `BasicComplex.__init__`: stores the supported list and, when it is
non-empty, routes its first element through the `data_format` setter. -/
def BasicComplex.init (supported : List Format) : PyResult PyErr Unit BasicComplex :=
  let bc : BasicComplex := { data_format := none, supported_formats := supported }
  match supported with
  | [] => .ok () bc
  | g :: _ => BasicComplex.set_data_format bc g

/-! ## FileStorage (`pywps/inout/storage.py`) -/

inductive StoreKind where
  | path
  | db
deriving DecidableEq, Repr

structure FileStorageConfig where
  target : String
  output_url : String
deriving DecidableEq, Repr

/-- The attributes `FileStorage.store` reads off the output handle.  `file`
is the handler's source path: the claims exercise FILE-bound outputs, for
which the `output.file` property returns `self.source` without side
effects. -/
structure FileOutput where
  file : String
  uuid : Option String
  data_format_extension : String
deriving DecidableEq, Repr

/-- The extension `FileStorage.store` uses: the source file's own, falling
back to the declared format's extension when the source name has none. -/
def computedSuffix (o : FileOutput) : String :=
  let suffix0 := (osPathSplitext o.file).2
  if suffix0 = "" then o.data_format_extension else suffix0

/-- The base-name half of the computed output name. -/
def computedBase (o : FileOutput) : String :=
  (osPathSplit (osPathSplitext o.file).1).2

/-- The output name computed by `FileStorage.store` before collision
handling. -/
def computedName (o : FileOutput) : String :=
  computedBase o ++ computedSuffix o

/-- `shutil.copy2` (metadata propagation not modelled). -/
def copy2 (w : World) (src dst : String) : PyResult PyErr Unit World :=
  match lookupFS w.files src with
  | none => .exn .fileNotFoundError w
  | some c =>
    if src = dst then .exn (.genericException "SameFileError") w
    else .ok () { w with files := writeFS w.files dst c }

/-- `FileStorage.store`.  `math.ceil(file_size / float(file_block_size))` is
the exact rational ceiling for the sizes at hand; it is modelled by the
natural-number ceiling. -/
def FileStorage.store (cfg : FileStorageConfig) (o : FileOutput) (w : World) :
    PyResult PyErr (StoreKind × String × String) World :=
  let file_name := o.file
  let request_uuid := match o.uuid with
    | some u => if u = "" then w.uuid1 else u
    | none => w.uuid1
  match World.statSize w file_name with
  | none => .exn .fileNotFoundError w
  | some content =>
    let file_block_size := World.statBlksize w file_name
    if file_block_size = 0 then .exn .zeroDivisionError w
    else
      -- "get_free_space delivers the numer of free blocks, not the available
      -- size!" — the code multiplies the target's free-block count by the
      -- *source file's* st_blksize
      let avail_size := w.targetFreeBlocks * file_block_size
      let file_size := content.length
      let actual_file_size :=
        ((file_size + file_block_size - 1) / file_block_size) * file_block_size
      if avail_size < actual_file_size then
        .exn (.notEnoughStorage
          ("Not enough space in " ++ cfg.target ++ " to store " ++ file_name)) w
      else
        let target := osPathJoin cfg.target request_uuid
        let w1 := if target ∈ w.dirs then w else { w with dirs := target :: w.dirs }
        let (output_name, w2) :=
          if (lookupFS w1.files (osPathJoin target (computedName o))).isSome then
            mkstemp w1 target (computedBase o ++ "_") (computedSuffix o)
          else (computedName o, w1)
        let full_output_name := osPathJoin target output_name
        match copy2 w2 o.file full_output_name with
        | .exn e w3 => .exn e w3
        | .ok _ w3 =>
          let just_file_name := osPathBasename output_name
          let baseurl := rstripSlash cfg.output_url ++ "/" ++ request_uuid ++ "/"
          .ok (.path, output_name, urljoin baseurl just_file_name) w3

/-! ## Database dialect stores (`pywps/inout/storage/db/pg.py`, `sqlite.py`) -/

/-- Modelled from the spec: the category vocabulary `DATA_TYPE` lives in
`pywps.inout.formats`, which is not among the analysed sources.  Spec §4.6
fixes the set `{VECTOR, RASTER, OTHER}`; the numeric values are those the
dialect backends compare `output.output_format.data_type` against. -/
def DATA_TYPE_VECTOR : Nat := 0
def DATA_TYPE_RASTER : Nat := 1
def DATA_TYPE_OTHER : Nat := 2

structure DbOutput where
  data_type : Nat
  file : String
  identifier : String
  uuid : String
deriving DecidableEq, Repr

/-- The dialect handler a `store` call hands the output to (the handler
bodies' database effects are outside the dispatch claim). -/
inductive DbAction where
  | vector (file identifier : String)
  | raster (file identifier : String)
  | other (file identifier uuid : String)
deriving DecidableEq, Repr

structure PgState where
  dbname : String
  schema_name : String
deriving DecidableEq, Repr

/-- `PgStorage.store`: `assert data_type in (0,1,2)`, then the
if/elif/else dispatch. -/
def PgStorage.store (st : PgState) (o : DbOutput) :
    Except PyErr (DbAction × StoreKind × String × String) :=
  if o.data_type = 0 ∨ o.data_type = 1 ∨ o.data_type = 2 then
    let act : DbAction :=
      if o.data_type = 0 then .vector o.file o.identifier
      else if o.data_type = 1 then .raster o.file o.identifier
      else .other o.file o.identifier o.uuid
    .ok (act, .db, o.file,
      st.dbname ++ "." ++ st.schema_name ++ "." ++ o.identifier)
  else .error .assertionError

structure SQLiteState where
  dblocation : String
deriving DecidableEq, Repr

/-- `SQLiteStorage.store`: `assert data_type in (0,1)`, then an
if/else over vector and raster only. -/
def SQLiteStorage.store (st : SQLiteState) (o : DbOutput) :
    Except PyErr (DbAction × StoreKind × String × String) :=
  if o.data_type = 0 ∨ o.data_type = 1 then
    let act : DbAction :=
      if o.data_type = 0 then .vector o.file o.identifier
      else .raster o.file o.identifier
    .ok (act, .db, o.file, st.dblocation ++ "." ++ o.identifier)
  else .error .assertionError

/-! ## Schema provisioning (`db/__init__.py` initdb, `pg.py` _create_schema) -/

structure DbEnv where
  schemas : List String
deriving DecidableEq, Repr

/-- `engine.execute(CreateSchema(name))` against PostgreSQL: a plain
`CREATE SCHEMA` raises a ProgrammingError when the schema already exists. -/
def pgCreateSchema (name : String) (env : DbEnv) : PyResult PyErr Unit DbEnv :=
  if name ∈ env.schemas then .exn .programmingError env
  else .ok () { env with schemas := name :: env.schemas }

/-- The same statement against SQLite: `CREATE SCHEMA` is not SQLite syntax,
so the execute raises an OperationalError whatever the state. -/
def sqliteCreateSchema (_ : String) (env : DbEnv) : PyResult PyErr Unit DbEnv :=
  .exn .operationalError env

/-- `DbStorage.initdb` (connection-string assembly elided: the claim is about
the provisioning step): runs `CreateSchema(schema_name)` and swallows
`ProgrammingError` and `OperationalError`. -/
def DbStorage.initdb (db_type : String) (schema_name : String) (env : DbEnv) :
    PyResult PyErr Unit DbEnv :=
  if db_type = "pg" then
    match pgCreateSchema schema_name env with
    | .ok _ e => .ok () e
    | .exn .programmingError e => .ok () e
    | .exn .operationalError e => .ok () e
    | .exn err e => .exn err e
  else if db_type = "sqlite" then
    match sqliteCreateSchema schema_name env with
    | .ok _ e => .ok () e
    | .exn .programmingError e => .ok () e
    | .exn .operationalError e => .ok () e
    | .exn err e => .exn err e
  else .exn (.genericException ("Unknown database type: " ++ db_type)) env

/-- `cur.execute('CREATE SCHEMA IF NOT EXISTS "<name>";')`: succeeds whether
or not the schema exists, creating it only when missing. -/
def pgCreateSchemaIfNotExists (name : String) (env : DbEnv) :
    PyResult PyErr Unit DbEnv :=
  if name ∈ env.schemas then .ok () env
  else .ok () { env with schemas := name :: env.schemas }

/-- `PgStorage._create_schema` (the randomly generated name is a parameter;
connection establishment is assumed to succeed — the claim concerns the
already-exists path). -/
def PgStorage.create_schema (name : String) (env : DbEnv) :
    PyResult PyErr String DbEnv :=
  match pgCreateSchemaIfNotExists name env with
  | .ok _ e => .ok name e
  | .exn _ e => .exn (.genericException "The query did not run succesfully.") e

/-! ## Derived notions used by the claim statements -/

/-- The ComplexHandle invariant: whatever format is current belongs to the
supported set under the same-format rule. -/
def formatInvariant (bc : BasicComplex) : Prop :=
  ∀ g, bc.data_format = some g → bc.is_supported g = true

/-- The binary/text decision rule stated claim-side: base64 encoding forces
binary, a mime type containing `text/` forces text, otherwise the sniffed
first 512 bytes decide (binary exactly when a zero byte occurs). -/
def openmodeOfFormat (dfa : Option Format) (c : List Nat) : String :=
  match dfa with
  | some df =>
    if df.encoding = "base64" then "rb"
    else if strContains df.mime_type "text/" then "r"
    else if 0 ∈ c.take 512 then "rb" else "r"
  | none => if 0 ∈ c.take 512 then "rb" else "r"

/-- The always-true validator (`emptyvalidator` accepts everything). -/
def acceptAll : Validator := fun _ _ => true

/-- An empty world for concrete evaluations. -/
def emptyWorld : World :=
  { files := [], dirs := [], blks := [], targetFreeBlocks := 0,
    targetBlksize := 0, uuid1 := "" }

/-- Spec scenario 2 configuration: target `/out`, base URL `http://x/y/`. -/
def shapeCfg : FileStorageConfig := { target := "/out", output_url := "http://x/y/" }

/-- Spec scenario 2 output: file `shape.gml` bound (absolute source path),
request id `r1`. -/
def shapeOut : FileOutput :=
  { file := "/cwd/shape.gml", uuid := some "r1", data_format_extension := ".gml" }

/-- A world holding the bound `shape.gml` with ample free space. -/
def shapeWorld : World :=
  { files := [("/cwd/shape.gml", [1, 2, 3])], dirs := [],
    blks := [("/cwd/shape.gml", 4096)], targetFreeBlocks := 10,
    targetBlksize := 4096, uuid1 := "gen" }

/-- A world whose source volume reports a 16-byte block size while the
target volume has 4-byte blocks and one free block: a 10-byte file fits by
the code's source-block arithmetic but not by target-volume accounting. -/
def mixedBlockWorld : World :=
  { files := [("/data/f.bin", List.replicate 10 1)], dirs := [],
    blks := [("/data/f.bin", 16)], targetFreeBlocks := 1,
    targetBlksize := 4, uuid1 := "gen" }

def binOut : FileOutput :=
  { file := "/data/f.bin", uuid := some "r1", data_format_extension := ".bin" }

/-- A format whose mime type contains `text/` without starting with it. -/
def oddMimeFormat : Format :=
  { mime_type := "application/text/x", encoding := "", schema := "", extension := ".dat" }

def oddMimeHandler : IOHandler :=
  { source_type := some SOURCE_TYPE_FILE, source := .vstr "/cwd/a.dat",
    data_format := some (some oddMimeFormat) }

/-- A world where the bound file's first bytes contain a zero byte. -/
def zeroByteWorld : World :=
  { emptyWorld with files := [("/cwd/a.dat", [0, 65])] }

/-- `shapeWorld` after a first successful store of `shapeOut` under request
`r1`: the computed output name now exists in the per-request directory. -/
def shapeWorldStored : World :=
  { files := [("/cwd/shape.gml", [1, 2, 3]), ("/out/r1/shape.gml", [1, 2, 3])],
    dirs := ["/out/r1"], blks := [("/cwd/shape.gml", 4096)],
    targetFreeBlocks := 10, targetBlksize := 4096, uuid1 := "gen" }

/-! # Theorems -/

/-- **C10.**  Reading from a never-bound handle is total and yields `None`:
on a freshly initialised `IOHandler` (no bind ever performed, `source_type`
unset), `get_file`, `get_stream` and `get_data` all return `None` without
raising. -/
theorem neverBound_reads_are_none (w : World) (wd : Option String) (mode : Nat) :
    IOHandler.get_file (IOHandler.init wd mode w).2 (IOHandler.init wd mode w).1 =
      .ok .vnone ((IOHandler.init wd mode w).1, (IOHandler.init wd mode w).2) ∧
    IOHandler.get_stream (IOHandler.init wd mode w).2 (IOHandler.init wd mode w).1 =
      .ok .vnone ∧
    IOHandler.get_data (IOHandler.init wd mode w).2 (IOHandler.init wd mode w).1 =
      .ok .vnone := by
  refine ⟨?_, ?_, ?_⟩ <;>
    simp [IOHandler.init, IOHandler.get_file, IOHandler.get_stream, IOHandler.get_data,
      SOURCE_TYPE_FILE, SOURCE_TYPE_STREAM, SOURCE_TYPE_DATA]

/-- **C2.**  Validation gating on bind: each of `set_file`, `set_stream`,
`set_data`, `set_base64` runs the validator on the state carrying the
just-bound source; when it returns `false` the call raises
`InvalidParameterValue`, the handle's `data_set` flag is left `false`, and
the bound source kind and value stay in place unchanged. -/
theorem bind_validation_gating (v : Validator) (h : IOHandler) (fn : String)
    (s : PyData) (d : PyVal) (dec : List Nat) :
    (v { h with source_type := some SOURCE_TYPE_FILE,
                source := .vstr (osPathAbspath fn) } h.valid_mode = false →
      IOHandler.set_file v fn h =
        .exn (.invalidParameterValue
            ("Input data not valid using mode " ++ toString h.valid_mode) "")
          { h with source_type := some SOURCE_TYPE_FILE,
                   source := .vstr (osPathAbspath fn), data_set := false }) ∧
    (v { h with source_type := some SOURCE_TYPE_STREAM,
                source := .vstream s } h.valid_mode = false →
      IOHandler.set_stream v s h =
        .exn (.invalidParameterValue
            ("Input data not valid using mode " ++ toString h.valid_mode) "")
          { h with source_type := some SOURCE_TYPE_STREAM,
                   source := .vstream s, data_set := false }) ∧
    (v { h with source_type := some SOURCE_TYPE_DATA, source := d } h.valid_mode = false →
      IOHandler.set_data v d h =
        .exn (.invalidParameterValue
            ("Input data not valid using mode " ++ toString h.valid_mode) "")
          { h with source_type := some SOURCE_TYPE_DATA,
                   source := d, data_set := false }) ∧
    (v { h with source_type := some SOURCE_TYPE_DATA,
                source := .vbytes dec } h.valid_mode = false →
      IOHandler.set_base64 v dec h =
        .exn (.invalidParameterValue
            ("Input data not valid using mode " ++ toString h.valid_mode) "")
          { h with source_type := some SOURCE_TYPE_DATA,
                   source := .vbytes dec, data_set := false }) := by
  refine ⟨fun hv => ?_, fun hv => ?_, fun hv => ?_, fun hv => ?_⟩ <;>
    simp [IOHandler.set_file, IOHandler.set_stream, IOHandler.set_data,
      IOHandler.set_base64, IOHandler.check_valid, hv]

/-- Witness for `bind_validation_gating` at a concrete rejecting validator. -/
theorem bind_validation_gating_witness :
    IOHandler.set_data (fun _ _ => false) (.vbytes [1, 2]) {} =
      .exn (.invalidParameterValue "Input data not valid using mode 0" "")
        { source_type := some SOURCE_TYPE_DATA, source := .vbytes [1, 2],
          data_set := false } :=
  (bind_validation_gating (fun _ _ => false) {} "f" (.bytes []) (.vbytes [1, 2]) []).2.2.1 rfl

/-- Reflexivity of the same-format rule. -/
theorem Format.same_as_refl (g : Format) : g.same_as g = true := by
  simp [Format.same_as]

/-- **C4.**  ComplexHandle format invariant: `__init__` establishes that the
current format belongs to `supported_formats` under the same-format rule;
a successful `data_format` assignment stores exactly the requested member
format and re-establishes the invariant; assigning a non-member raises
`InvalidParameterValue` naming the rejected mime/encoding/schema triple and
returns the state unchanged (failure before mutation). -/
theorem data_format_always_supported :
    (∀ (supported : List Format) (bc' : BasicComplex),
        BasicComplex.init supported = .ok () bc' → formatInvariant bc') ∧
    (∀ (bc : BasicComplex) (g : Format) (bc' : BasicComplex),
        BasicComplex.set_data_format bc g = .ok () bc' →
          bc'.data_format = some g ∧
          bc'.supported_formats = bc.supported_formats ∧ formatInvariant bc') ∧
    (∀ (bc : BasicComplex) (g : Format),
        bc.is_supported g = false →
          BasicComplex.set_data_format bc g =
            .exn (.invalidParameterValue
                ("Requested format " ++ g.mime_type ++ ", " ++ g.encoding ++ ", " ++
                  g.schema ++ " not supported") "mimeType") bc) := by
  have hset : ∀ (bc : BasicComplex) (g : Format) (bc' : BasicComplex),
      BasicComplex.set_data_format bc g = .ok () bc' →
        bc'.data_format = some g ∧
        bc'.supported_formats = bc.supported_formats ∧ formatInvariant bc' := by
    intro bc g bc' hok
    unfold BasicComplex.set_data_format at hok
    by_cases hs : bc.is_supported g
    · simp [hs] at hok
      subst hok
      refine ⟨rfl, rfl, ?_⟩
      intro g' hg'
      simp at hg'
      subst hg'
      simpa [BasicComplex.is_supported] using hs
    · simp [hs] at hok
  refine ⟨?_, hset, ?_⟩
  · intro supported bc' hok
    match hsup : supported with
    | [] =>
      unfold BasicComplex.init at hok
      simp at hok
      subst hok
      intro g hg
      simp at hg
    | g :: rest =>
      unfold BasicComplex.init at hok
      exact (hset _ g bc' hok).2.2
  · intro bc g hs
    simp [BasicComplex.set_data_format, hs]

/-- Witness for `data_format_always_supported`: a one-element supported list
accepts a same-format value and rejects a different mime type with the
triple-naming error. -/
theorem data_format_always_supported_witness :
    BasicComplex.set_data_format
        { data_format := none,
          supported_formats := [⟨"application/gml+xml", "", "", ".gml"⟩] }
        ⟨"text/csv", "utf-8", "s", ".csv"⟩ =
      .exn (.invalidParameterValue
          "Requested format text/csv, utf-8, s not supported" "mimeType")
        { data_format := none,
          supported_formats := [⟨"application/gml+xml", "", "", ".gml"⟩] } :=
  data_format_always_supported.2.2
    { data_format := none,
      supported_formats := [⟨"application/gml+xml", "", "", ".gml"⟩] }
    ⟨"text/csv", "utf-8", "s", ".csv"⟩ (by decide)

/-- **C5.**  Category dispatch of the dialect stores, evaluated on concrete
outputs: `PgStorage.store` sends VECTOR (0) to the vector handler, RASTER
(1) to the raster handler, OTHER (2) to the other handler, and fails the
assert on a category outside the vocabulary; `SQLiteStorage.store` however
fails its `assert data_type in (0,1)` on an OTHER output instead of
dispatching it to its (existing) other handler. -/
theorem db_store_dispatch_eval :
    PgStorage.store ⟨"pisl", "sch"⟩ ⟨DATA_TYPE_VECTOR, "/f.gml", "vec", "u1"⟩ =
      .ok (.vector "/f.gml" "vec", .db, "/f.gml", "pisl.sch.vec") ∧
    PgStorage.store ⟨"pisl", "sch"⟩ ⟨DATA_TYPE_RASTER, "/f.tif", "ras", "u1"⟩ =
      .ok (.raster "/f.tif" "ras", .db, "/f.tif", "pisl.sch.ras") ∧
    PgStorage.store ⟨"pisl", "sch"⟩ ⟨DATA_TYPE_OTHER, "/f.csv", "csv", "u1"⟩ =
      .ok (.other "/f.csv" "csv" "u1", .db, "/f.csv", "pisl.sch.csv") ∧
    PgStorage.store ⟨"pisl", "sch"⟩ ⟨7, "/f.bin", "bad", "u1"⟩ =
      .error .assertionError ∧
    SQLiteStorage.store ⟨"/db.sqlite"⟩ ⟨DATA_TYPE_VECTOR, "/f.gml", "vec", "u1"⟩ =
      .ok (.vector "/f.gml" "vec", .db, "/f.gml", "/db.sqlite.vec") ∧
    SQLiteStorage.store ⟨"/db.sqlite"⟩ ⟨DATA_TYPE_RASTER, "/f.tif", "ras", "u1"⟩ =
      .ok (.raster "/f.tif" "ras", .db, "/f.tif", "/db.sqlite.ras") ∧
    SQLiteStorage.store ⟨"/db.sqlite"⟩ ⟨DATA_TYPE_OTHER, "/f.csv", "csv", "u1"⟩ =
      .error .assertionError :=
  ⟨rfl, rfl, rfl, rfl, rfl, rfl, rfl⟩

/-- **C8.**  Idempotent namespace provisioning: `DbStorage.initdb` (pg)
succeeds from any state and leaves the schema present; on a state where the
schema already exists it succeeds silently without change; the sqlite
branch's syntax error is likewise swallowed; `PgStorage._create_schema`'s
`CREATE SCHEMA IF NOT EXISTS` succeeds from any state, leaves the schema
present, and is a no-op when the schema already exists. -/
theorem schema_provisioning_idempotent (env : DbEnv) (name : String) (l : List String) :
    (∃ e, DbStorage.initdb "pg" name env = .ok () e ∧ name ∈ e.schemas) ∧
    DbStorage.initdb "pg" name ⟨name :: l⟩ = .ok () ⟨name :: l⟩ ∧
    DbStorage.initdb "sqlite" name env = .ok () env ∧
    (∃ e, PgStorage.create_schema name env = .ok name e ∧ name ∈ e.schemas) ∧
    PgStorage.create_schema name ⟨name :: l⟩ = .ok name ⟨name :: l⟩ := by
  by_cases hmem : name ∈ env.schemas
  · refine ⟨⟨env, ?_, hmem⟩, ?_, ?_, ⟨env, ?_, hmem⟩, ?_⟩ <;>
      simp [DbStorage.initdb, pgCreateSchema, sqliteCreateSchema,
        PgStorage.create_schema, pgCreateSchemaIfNotExists, hmem]
  · refine ⟨⟨⟨name :: env.schemas⟩, ?_, by simp⟩, ?_, ?_,
      ⟨⟨name :: env.schemas⟩, ?_, by simp⟩, ?_⟩ <;>
      simp [DbStorage.initdb, pgCreateSchema, sqliteCreateSchema,
        PgStorage.create_schema, pgCreateSchemaIfNotExists, hmem]

/-- **C1.**  Representation round trip, evaluated: binding data `b"ABCD"`
and reading it back yields content-equal data; but binding a *byte stream*
of `b"ABCD"` and calling `get_file` raises a `TypeError` (the temp file is
opened in text mode because the stream object is not a `bytes` instance),
leaving only an empty temp file behind, instead of materialising the
drained bytes. -/
theorem bind_then_read_eval :
    (IOHandler.set_data acceptAll (.vbytes [65, 66, 67, 68])
        { workdir := some "/wd" } =
      .ok () { workdir := some "/wd", source_type := some SOURCE_TYPE_DATA,
               source := .vbytes [65, 66, 67, 68], data_set := true } ∧
     IOHandler.get_data emptyWorld
        { workdir := some "/wd", source_type := some SOURCE_TYPE_DATA,
          source := .vbytes [65, 66, 67, 68], data_set := true } =
      .ok (.vbytes [65, 66, 67, 68])) ∧
    (IOHandler.set_stream acceptAll (.bytes [65, 66, 67, 68])
        { workdir := some "/wd" } =
      .ok () { workdir := some "/wd", source_type := some SOURCE_TYPE_STREAM,
               source := .vstream (.bytes [65, 66, 67, 68]), data_set := true } ∧
     IOHandler.get_file emptyWorld
        { workdir := some "/wd", source_type := some SOURCE_TYPE_STREAM,
          source := .vstream (.bytes [65, 66, 67, 68]), data_set := true } =
      .exn .typeError
        ({ workdir := some "/wd", source_type := some SOURCE_TYPE_STREAM,
           source := .vstream (.bytes [65, 66, 67, 68]), data_set := true },
         { emptyWorld with files := [("/wd/tmpx", [])] })) :=
  ⟨⟨rfl, rfl⟩, rfl, rfl⟩

/-! ## Support lemmas for the storage theorems -/

theorem strExt {s t : String} (h : s.data = t.data) : s = t := by
  cases s
  cases t
  simp only at h
  exact congrArg String.mk h

theorem lookupFS_writeFS_self (files : List (String × List Nat)) (p : String)
    (c : List Nat) : lookupFS (writeFS files p c) p = some c := by
  induction files with
  | nil => simp [writeFS, lookupFS]
  | cons hd tl ih =>
    by_cases hq : hd.1 = p
    · simp [writeFS, lookupFS, hq]
    · simpa [writeFS, lookupFS, hq] using ih

theorem lookupFS_writeFS_ne (files : List (String × List Nat)) {p q : String}
    (c : List Nat) (h : q ≠ p) :
    lookupFS (writeFS files p c) q = lookupFS files q := by
  have hpq : ¬ p = q := fun he => h he.symm
  induction files with
  | nil => simp [writeFS, lookupFS, hpq]
  | cons hd tl ih =>
    by_cases hq : hd.1 = p
    · subst hq
      simp [writeFS, lookupFS, hpq]
    · simp only [writeFS, if_neg hq, lookupFS]
      by_cases hh : hd.1 = q
      · simp [hh]
      · simp [hh, ih]

theorem le_data_length_osPathJoin (a b : String) :
    b.data.length ≤ (osPathJoin a b).data.length := by
  unfold osPathJoin
  split
  · exact le_refl _
  · split <;> (simp [String.data_append]; try omega)

theorem le_data_length_osPathAbspath (p : String) :
    p.data.length ≤ (osPathAbspath p).data.length := by
  unfold osPathAbspath
  split
  · exact le_refl _
  · exact le_data_length_osPathJoin _ _

theorem le_length_mkstempName (dir pre suffix : String) (k : Nat) :
    k ≤ (mkstempName dir pre suffix k).data.length := by
  unfold mkstempName
  refine le_trans ?_ (le_trans (le_data_length_osPathJoin dir _)
    (le_data_length_osPathAbspath _))
  simp [String.data_append]
  omega

theorem lookupFS_some_length_lt (files : List (String × List Nat)) (q : String)
    (h : (lookupFS files q).isSome) : q.data.length < mkstempPad files := by
  induction files with
  | nil => simp [lookupFS, lookupFS] at h
  | cons hd tl ih =>
    unfold mkstempPad at ih ⊢
    by_cases hq : hd.1 = q
    · subst hq
      simp only [List.map_cons, List.foldr_cons]
      omega
    · simp only [lookupFS, lookupFS, if_neg hq] at h
      have := ih h
      simp only [List.map_cons, List.foldr_cons]
      omega

theorem mkstemp_fresh (w : World) (dir pre suffix : String) :
    lookupFS w.files (mkstemp w dir pre suffix).1 = none := by
  rcases hl : lookupFS w.files (mkstemp w dir pre suffix).1 with _ | c
  · rfl
  · exfalso
    have hsome : (lookupFS w.files (mkstemp w dir pre suffix).1).isSome := by
      simp [hl]
    have h1 := lookupFS_some_length_lt w.files _ hsome
    have h2 := le_length_mkstempName dir pre suffix (mkstempPad w.files)
    have : (mkstemp w dir pre suffix).1 = mkstempName dir pre suffix (mkstempPad w.files) := rfl
    rw [this] at h1
    omega

theorem osPathJoin_abs (a b : String) (h : headIsSlash b = true) :
    osPathJoin a b = b := by
  simp [osPathJoin, h]

theorem headIsSlash_osPathAbspath (p : String) :
    headIsSlash (osPathAbspath p) = true := by
  unfold osPathAbspath
  split
  · assumption
  · unfold osPathJoin
    split
    · simp_all
    · split
      · rename_i hor
        exact absurd hor (by decide)
      · rfl

theorem urljoin_slash (s rel : String) : urljoin (s ++ "/") rel = (s ++ "/") ++ rel := by
  unfold urljoin
  have hdata : (s ++ "/").data = s.data ++ ['/'] := by
    rw [String.data_append]
  have h1 : ((s ++ "/").data.reverse.dropWhile (fun c => c ≠ '/')).reverse = (s ++ "/").data := by
    rw [hdata]
    simp [List.dropWhile]
  rw [h1]


/-- Forward evaluation of a `FileStorage.store` call that passes the space
check: the request directory is ensured, and the copy lands either at the
computed name or, on collision, at a fresh mkstemp path. -/
theorem store_eval (cfg : FileStorageConfig) (o : FileOutput) (w : World) (uu : String)
    (huuid : o.uuid = some uu) (huu : uu ≠ "")
    (content : List Nat) (hstat : lookupFS w.files o.file = some content)
    (hbs : ¬ w.statBlksize o.file = 0)
    (hsp : ¬ (w.targetFreeBlocks * w.statBlksize o.file <
      (content.length + w.statBlksize o.file - 1) / w.statBlksize o.file *
        w.statBlksize o.file)) :
    FileStorage.store cfg o w =
      (let tdir := osPathJoin cfg.target uu
       let w1 := if tdir ∈ w.dirs then w else { w with dirs := tdir :: w.dirs }
       if (lookupFS w.files (osPathJoin tdir (computedName o))).isSome then
         let pname := mkstempName tdir (computedBase o ++ "_") (computedSuffix o)
           (mkstempPad w.files)
         .ok (.path, pname,
             rstripSlash cfg.output_url ++ "/" ++ uu ++ "/" ++ osPathBasename pname)
           { w1 with files := writeFS (writeFS w.files pname []) pname content }
       else
         .ok (.path, computedName o,
             rstripSlash cfg.output_url ++ "/" ++ uu ++ "/" ++
               osPathBasename (computedName o))
           { w1 with files := writeFS w.files (osPathJoin tdir (computedName o)) content }) := by
  unfold FileStorage.store
  rw [huuid]
  simp only [if_neg huu]
  have hss : World.statSize w o.file = some content := hstat
  rw [hss]
  simp only
  rw [if_neg hbs, if_neg hsp]
  set tdir := osPathJoin cfg.target uu with htdir
  set w1 := (if tdir ∈ w.dirs then w else { w with dirs := tdir :: w.dirs }) with hw1
  have hw1files : w1.files = w.files := by
    rw [hw1]
    split <;> rfl
  rw [hw1files]
  by_cases hc : (lookupFS w.files (osPathJoin tdir (computedName o))).isSome = true
  · simp only [if_pos hc]
    set pname := mkstempName tdir (computedBase o ++ "_") (computedSuffix o) (mkstempPad w.files) with hpname
    have hmk : mkstemp w1 tdir (computedBase o ++ "_") (computedSuffix o) =
        (pname, { w1 with files := writeFS w.files pname [] }) := by
      unfold mkstemp
      rw [hw1files]
    rw [hmk]
    simp only
    have hfr : lookupFS w.files pname = none := by
      have h := mkstemp_fresh w1 tdir (computedBase o ++ "_") (computedSuffix o)
      rw [hw1files, hmk] at h
      exact h
    have hne : o.file ≠ pname := by
      intro he
      rw [he, hfr] at hstat
      exact Option.noConfusion hstat
    have habs : osPathJoin tdir pname = pname :=
      osPathJoin_abs _ _ (headIsSlash_osPathAbspath _)
    rw [habs]
    unfold copy2
    simp only [lookupFS_writeFS_ne _ _ hne]
    rw [show lookupFS w.files o.file = some content from hstat]
    simp only
    rw [if_neg hne]
    rw [urljoin_slash]
  · simp only [if_neg hc]
    have hnone : lookupFS w.files (osPathJoin tdir (computedName o)) = none := by
      rcases hl : lookupFS w.files (osPathJoin tdir (computedName o)) with _ | c
      · rfl
      · rw [hl] at hc
        simp at hc
    have hne : o.file ≠ osPathJoin tdir (computedName o) := by
      intro he
      rw [← he, hstat] at hnone
      exact Option.noConfusion hnone
    unfold copy2
    rw [hw1files]
    rw [hstat]
    simp only
    rw [if_neg hne]
    rw [urljoin_slash]

/-- Inversion of a successful `FileStorage.store`: the source file was
statable, its block size non-zero, and the space check passed. -/
theorem storeOk_inv (cfg : FileStorageConfig) (o : FileOutput) (w w' : World)
    (r : StoreKind × String × String)
    (hok : FileStorage.store cfg o w = .ok r w') :
    ∃ content, lookupFS w.files o.file = some content ∧
      ¬ w.statBlksize o.file = 0 ∧
      ¬ (w.targetFreeBlocks * w.statBlksize o.file <
        (content.length + w.statBlksize o.file - 1) / w.statBlksize o.file *
          w.statBlksize o.file) := by
  unfold FileStorage.store at hok
  simp only [] at hok
  rcases hstat : World.statSize w o.file with _ | content
  · rw [hstat] at hok
    exact PyResult.noConfusion hok
  · rw [hstat] at hok
    simp only at hok
    by_cases hbs : w.statBlksize o.file = 0
    · rw [if_pos hbs] at hok
      exact PyResult.noConfusion hok
    · rw [if_neg hbs] at hok
      by_cases hsp : w.targetFreeBlocks * w.statBlksize o.file <
          (content.length + w.statBlksize o.file - 1) / w.statBlksize o.file *
            w.statBlksize o.file
      · rw [if_pos hsp] at hok
        exact PyResult.noConfusion hok
      · exact ⟨content, hstat, hbs, hsp⟩

/-- **C3 (amended).**  Space guard: when rounding the source file's byte
size up to a multiple of the *source file's reported block size* needs more
than the target's free-block count times that same block size,
`FileStorage.store` raises `NotEnoughStorage` and returns the world exactly
as it was — no directory created, no file copied. -/
theorem space_guard_raises (cfg : FileStorageConfig) (o : FileOutput) (w : World)
    (content : List Nat) (hstat : lookupFS w.files o.file = some content)
    (hbs : ¬ w.statBlksize o.file = 0)
    (hsp : w.targetFreeBlocks * w.statBlksize o.file <
      (content.length + w.statBlksize o.file - 1) / w.statBlksize o.file *
        w.statBlksize o.file) :
    FileStorage.store cfg o w =
      .exn (.notEnoughStorage
        ("Not enough space in " ++ cfg.target ++ " to store " ++ o.file)) w := by
  unfold FileStorage.store
  simp only []
  have hss : World.statSize w o.file = some content := hstat
  rw [hss]
  simp only
  rw [if_neg hbs, if_pos hsp]

/-- Witness for `space_guard_raises`: zero free blocks on the target. -/
theorem space_guard_raises_witness :
    FileStorage.store shapeCfg binOut { mixedBlockWorld with targetFreeBlocks := 0 } =
      .exn (.notEnoughStorage
        ("Not enough space in " ++ shapeCfg.target ++ " to store " ++ binOut.file))
        { mixedBlockWorld with targetFreeBlocks := 0 } :=
  space_guard_raises shapeCfg binOut { mixedBlockWorld with targetFreeBlocks := 0 }
    (List.replicate 10 1) rfl (by decide) (by decide)

/-- **C3 (counterexample to the claim as stated).**  With the *target
volume's* block size (4) the 10-byte file needs 12 bytes, more than the
4 bytes actually available on the target (1 free block × 4), so the claim
as stated demands an `OutOfStorage` failure; but the code rounds by the
*source file's* block size (16) and compares against 1 × 16 = 16 bytes, so
it proceeds and copies the file. -/
theorem space_guard_raises_counterexample :
    mixedBlockWorld.targetFreeBlocks * mixedBlockWorld.targetBlksize <
      ((List.replicate 10 (1 : Nat)).length + mixedBlockWorld.targetBlksize - 1) /
          mixedBlockWorld.targetBlksize * mixedBlockWorld.targetBlksize ∧
    lookupFS mixedBlockWorld.files binOut.file = some (List.replicate 10 1) ∧
    FileStorage.store shapeCfg binOut mixedBlockWorld =
      .ok (.path, "f.bin", "http://x/y/r1/f.bin")
        { mixedBlockWorld with
          files := [("/data/f.bin", List.replicate 10 1),
                    ("/out/r1/f.bin", List.replicate 10 1)],
          dirs := ["/out/r1"] } :=
  ⟨by decide, rfl, rfl⟩

/-- **C9 (amended).**  Binary/text mode decision of `_openmode` for a
FILE-backed handle: a bound format with `encoding == 'base64'` forces
binary; otherwise a mime type *containing* `'text/'` forces text; in every
remaining case (including no bound format) the first 512 bytes are sniffed
and the mode is binary exactly when they contain a zero byte. -/
theorem openmode_decision (w : World) (h : IOHandler) (dfa : Option Format)
    (p : String) (c : List Nat)
    (hdf : h.data_format = Option.map some dfa)
    (hsrc : h.source = .vstr p) (hc : lookupFS w.files p = some c) :
    IOHandler.openmode w h = .ok (openmodeOfFormat dfa c) := by
  have hsniff : IOHandler.openmodeSniff w h =
      .ok (if 0 ∈ c.take 512 then "rb" else "r") := by
    unfold IOHandler.openmodeSniff is_textfile
    rw [hsrc]
    simp only [hc]
    by_cases hz : 0 ∈ c.take 512
    · simp [hz]
    · simp [hz]
  unfold IOHandler.openmode
  simp only [PY2, Bool.false_eq_true, if_false]
  cases dfa with
  | none =>
    simp only [Option.map] at hdf
    rw [hdf]
    simpa [openmodeOfFormat] using hsniff
  | some df =>
    simp only [Option.map] at hdf
    rw [hdf]
    simp only [openmodeOfFormat]
    by_cases he : df.encoding = "base64"
    · simp [he]
    · rw [if_neg he]
      by_cases hm : strContains df.mime_type "text/" = true
      · simp [he, hm]
      · simp only [Bool.not_eq_true] at hm
        simp [he, hm, hsniff]

/-- Witness for `openmode_decision`: no bound format, zero byte present,
so the file is read in binary mode. -/
theorem openmode_decision_witness :
    IOHandler.openmode zeroByteWorld { oddMimeHandler with data_format := none } =
      .ok "rb" :=
  openmode_decision zeroByteWorld { oddMimeHandler with data_format := none }
    none "/cwd/a.dat" [0, 65] rfl rfl rfl

/-- **C9 (counterexample to the claim as stated).**  `oddMimeFormat`'s mime
type does not *start with* `text/` (and its encoding is not base64), and
the bound file's first bytes contain a zero byte, so the claim as stated
demands binary mode; the code, which tests `'text/' in mime_type`
(substring), opens the file in text mode `"r"`. -/
theorem openmode_decision_counterexample :
    oddMimeFormat.encoding ≠ "base64" ∧
    leadsWith "text/".data oddMimeFormat.mime_type.data = false ∧
    oddMimeHandler.data_format = some (some oddMimeFormat) ∧
    lookupFS zeroByteWorld.files "/cwd/a.dat" = some [0, 65] ∧
    (0 ∈ ([0, 65] : List Nat).take 512) ∧
    IOHandler.openmode zeroByteWorld oddMimeHandler = .ok "r" := by
  refine ⟨by decide, by decide, rfl, rfl, by decide, rfl⟩

/-- **C7 (amended).**  Result shape and URL joining: the spec scenario
(`shape.gml`, base URL `http://x/y/`, request id `r1`, no pre-existing
file) returns `(PATH, "shape.gml", "http://x/y/r1/shape.gml")`; in general
a successful store returns kind PATH and a url equal to the base URL
(slash-normalised) joined with the request-identifier segment and the final
file name, and the returned location is the computed file name whenever no
collision occurred (on collision it is the alternate file's full path — see
the counterexample). -/
theorem store_result_and_url :
    (FileStorage.store shapeCfg shapeOut shapeWorld =
      .ok (.path, "shape.gml", "http://x/y/r1/shape.gml")
        { shapeWorld with
          files := [("/cwd/shape.gml", [1, 2, 3]), ("/out/r1/shape.gml", [1, 2, 3])],
          dirs := ["/out/r1"] }) ∧
    (∀ (cfg : FileStorageConfig) (o : FileOutput) (w w' : World) (k : StoreKind)
        (n u uu : String), o.uuid = some uu → uu ≠ "" →
      FileStorage.store cfg o w = .ok (k, n, u) w' →
      k = .path ∧
      u = rstripSlash cfg.output_url ++ "/" ++ uu ++ "/" ++ osPathBasename n ∧
      (lookupFS w.files (osPathJoin (osPathJoin cfg.target uu) (computedName o)) = none →
        n = computedName o)) := by
  constructor
  · rfl
  · intro cfg o w w' k n u uu huuid huu hok
    obtain ⟨content, hstat, hbs, hsp⟩ := storeOk_inv cfg o w w' _ hok
    rw [store_eval cfg o w uu huuid huu content hstat hbs hsp] at hok
    simp only at hok
    by_cases hcol : (lookupFS w.files
        (osPathJoin (osPathJoin cfg.target uu) (computedName o))).isSome = true
    · rw [if_pos hcol] at hok
      simp only [PyResult.ok.injEq, Prod.mk.injEq] at hok
      obtain ⟨⟨hk, hn, hu⟩, hw⟩ := hok
      refine ⟨hk.symm, hu.symm.trans (by rw [hn]), ?_⟩
      intro hnone
      rw [hnone] at hcol
      simp at hcol
    · rw [if_neg hcol] at hok
      simp only [PyResult.ok.injEq, Prod.mk.injEq] at hok
      obtain ⟨⟨hk, hn, hu⟩, hw⟩ := hok
      exact ⟨hk.symm, hu.symm.trans (by rw [hn]), fun _ => hn.symm⟩

/-- Witness for the general half of `store_result_and_url`, applied to the
spec scenario. -/
theorem store_result_and_url_witness :
    StoreKind.path = StoreKind.path ∧
    "http://x/y/r1/shape.gml" =
      rstripSlash shapeCfg.output_url ++ "/" ++ "r1" ++ "/" ++
        osPathBasename "shape.gml" ∧
    (lookupFS shapeWorld.files
        (osPathJoin (osPathJoin shapeCfg.target "r1") (computedName shapeOut)) = none →
      "shape.gml" = computedName shapeOut) :=
  store_result_and_url.2 shapeCfg shapeOut shapeWorld
    { shapeWorld with
      files := [("/cwd/shape.gml", [1, 2, 3]), ("/out/r1/shape.gml", [1, 2, 3])],
      dirs := ["/out/r1"] }
    .path "shape.gml" "http://x/y/r1/shape.gml" "r1" rfl (by decide)
    store_result_and_url.1

/-- **C7 (counterexample to the claim as stated).**  When the computed name
already exists, the returned *location* is the alternate file's absolute
path, not the final file name (its base name): the claim's "the returned
location is the final file name" fails on this input. -/
theorem store_result_and_url_counterexample :
    FileStorage.store shapeCfg shapeOut shapeWorldStored =
      .ok (.path, "/out/r1/shape_xxxxxxxxxxxxxxxxxx.gml",
          "http://x/y/r1/shape_xxxxxxxxxxxxxxxxxx.gml")
        { shapeWorldStored with
          files := [("/cwd/shape.gml", [1, 2, 3]), ("/out/r1/shape.gml", [1, 2, 3]),
                    ("/out/r1/shape_xxxxxxxxxxxxxxxxxx.gml", [1, 2, 3])] } ∧
    "/out/r1/shape_xxxxxxxxxxxxxxxxxx.gml" ≠
      osPathBasename "/out/r1/shape_xxxxxxxxxxxxxxxxxx.gml" :=
  ⟨rfl, by decide⟩

/-- **C6.**  Collision avoidance: storing two outputs that compute the same
output name under the same request identifier yields two distinct files;
the first store's file keeps its content (equal to the first source), the
second lands under an alternate mkstemp name (base name plus distinguishing
part plus the same extension) carrying the second source's content. -/
theorem collision_avoidance_two_stores
    (cfg : FileStorageConfig) (o1 o2 : FileOutput) (w w1 w2 : World)
    (k1 k2 : StoreKind) (n1 n2 u1 u2 uu : String)
    (h1uuid : o1.uuid = some uu) (h2uuid : o2.uuid = some uu) (huu : uu ≠ "")
    (hname : computedName o1 = computedName o2)
    (hs1 : FileStorage.store cfg o1 w = .ok (k1, n1, u1) w1)
    (hs2 : FileStorage.store cfg o2 w1 = .ok (k2, n2, u2) w2) :
    osPathJoin (osPathJoin cfg.target uu) n1 ≠ osPathJoin (osPathJoin cfg.target uu) n2 ∧
    lookupFS w2.files (osPathJoin (osPathJoin cfg.target uu) n1) =
      lookupFS w.files o1.file ∧
    lookupFS w2.files (osPathJoin (osPathJoin cfg.target uu) n2) =
      lookupFS w1.files o2.file ∧
    n2 = mkstempName (osPathJoin cfg.target uu) (computedBase o2 ++ "_")
      (computedSuffix o2) (mkstempPad w1.files) := by
  obtain ⟨c1, hstat1, hbs1, hsp1⟩ := storeOk_inv cfg o1 w w1 _ hs1
  obtain ⟨c2, hstat2, hbs2, hsp2⟩ := storeOk_inv cfg o2 w1 w2 _ hs2
  rw [store_eval cfg o1 w uu h1uuid huu c1 hstat1 hbs1 hsp1] at hs1
  rw [store_eval cfg o2 w1 uu h2uuid huu c2 hstat2 hbs2 hsp2] at hs2
  simp only at hs1 hs2
  set tdir := osPathJoin cfg.target uu with htdir
  have hkey : lookupFS w1.files (osPathJoin tdir n1) = some c1 ∧
      (lookupFS w1.files (osPathJoin tdir (computedName o2))).isSome = true := by
    by_cases hc1 : (lookupFS w.files (osPathJoin tdir (computedName o1))).isSome = true
    · rw [if_pos hc1] at hs1
      simp only [PyResult.ok.injEq, Prod.mk.injEq] at hs1
      obtain ⟨⟨hk1, hn1, hu1⟩, hw1⟩ := hs1
      subst hn1
      set pname1 := mkstempName tdir (computedBase o1 ++ "_") (computedSuffix o1)
        (mkstempPad w.files) with hpname1
      have hw1f : w1.files = writeFS (writeFS w.files pname1 []) pname1 c1 := by
        rw [← hw1]
      have habs1 : osPathJoin tdir pname1 = pname1 :=
        osPathJoin_abs _ _ (headIsSlash_osPathAbspath _)
      have hfr1 : lookupFS w.files pname1 = none :=
        mkstemp_fresh w tdir (computedBase o1 ++ "_") (computedSuffix o1)
      have hnc : osPathJoin tdir (computedName o1) ≠ pname1 := by
        intro he
        rw [he, hfr1] at hc1
        simp at hc1
      constructor
      · rw [habs1, hw1f]
        exact lookupFS_writeFS_self _ _ _
      · rw [← hname, hw1f]
        rw [lookupFS_writeFS_ne _ _ hnc, lookupFS_writeFS_ne _ _ hnc]
        exact hc1
    · rw [if_neg hc1] at hs1
      simp only [PyResult.ok.injEq, Prod.mk.injEq] at hs1
      obtain ⟨⟨hk1, hn1, hu1⟩, hw1⟩ := hs1
      subst hn1
      have hw1f : w1.files = writeFS w.files (osPathJoin tdir (computedName o1)) c1 := by
        rw [← hw1]
      constructor
      · rw [hw1f]
        exact lookupFS_writeFS_self _ _ _
      · rw [← hname, hw1f, lookupFS_writeFS_self]
        rfl
  obtain ⟨hfull1, hcol2⟩ := hkey
  rw [if_pos hcol2] at hs2
  simp only [PyResult.ok.injEq, Prod.mk.injEq] at hs2
  obtain ⟨⟨hk2, hn2, hu2⟩, hw2⟩ := hs2
  subst hn2
  set pname2 := mkstempName tdir (computedBase o2 ++ "_") (computedSuffix o2)
    (mkstempPad w1.files) with hpname2
  have habs2 : osPathJoin tdir pname2 = pname2 :=
    osPathJoin_abs _ _ (headIsSlash_osPathAbspath _)
  have hfr2 : lookupFS w1.files pname2 = none :=
    mkstemp_fresh w1 tdir (computedBase o2 ++ "_") (computedSuffix o2)
  have hw2f : w2.files = writeFS (writeFS w1.files pname2 []) pname2 c2 := by
    rw [← hw2]
  have hne12 : osPathJoin tdir n1 ≠ pname2 := by
    intro he
    rw [he, hfr2] at hfull1
    exact Option.noConfusion hfull1
  refine ⟨?_, ?_, ?_, rfl⟩
  · rw [habs2]
    exact hne12
  · rw [hw2f, lookupFS_writeFS_ne _ _ hne12, lookupFS_writeFS_ne _ _ hne12, hfull1, hstat1]
  · rw [habs2, hw2f, lookupFS_writeFS_self, hstat2]
/-- Witness for `collision_avoidance_two_stores`: storing `shape.gml` twice
under request `r1`. -/
theorem collision_avoidance_two_stores_witness :
    osPathJoin (osPathJoin shapeCfg.target "r1") "shape.gml" ≠
      osPathJoin (osPathJoin shapeCfg.target "r1")
        "/out/r1/shape_xxxxxxxxxxxxxxxxxx.gml" ∧
    lookupFS
        { shapeWorldStored with
          files := [("/cwd/shape.gml", [1, 2, 3]), ("/out/r1/shape.gml", [1, 2, 3]),
                    ("/out/r1/shape_xxxxxxxxxxxxxxxxxx.gml", [1, 2, 3])] }.files
        (osPathJoin (osPathJoin shapeCfg.target "r1") "shape.gml") =
      lookupFS shapeWorld.files shapeOut.file ∧
    lookupFS
        { shapeWorldStored with
          files := [("/cwd/shape.gml", [1, 2, 3]), ("/out/r1/shape.gml", [1, 2, 3]),
                    ("/out/r1/shape_xxxxxxxxxxxxxxxxxx.gml", [1, 2, 3])] }.files
        (osPathJoin (osPathJoin shapeCfg.target "r1")
          "/out/r1/shape_xxxxxxxxxxxxxxxxxx.gml") =
      lookupFS shapeWorldStored.files shapeOut.file ∧
    "/out/r1/shape_xxxxxxxxxxxxxxxxxx.gml" =
      mkstempName (osPathJoin shapeCfg.target "r1") (computedBase shapeOut ++ "_")
        (computedSuffix shapeOut) (mkstempPad shapeWorldStored.files) :=
  collision_avoidance_two_stores shapeCfg shapeOut shapeOut shapeWorld
    shapeWorldStored
    { shapeWorldStored with
      files := [("/cwd/shape.gml", [1, 2, 3]), ("/out/r1/shape.gml", [1, 2, 3]),
                ("/out/r1/shape_xxxxxxxxxxxxxxxxxx.gml", [1, 2, 3])] }
    .path .path "shape.gml" "/out/r1/shape_xxxxxxxxxxxxxxxxxx.gml"
    "http://x/y/r1/shape.gml" "http://x/y/r1/shape_xxxxxxxxxxxxxxxxxx.gml" "r1"
    rfl rfl (by decide) rfl rfl rfl

end PyWPS
